import Mathlib

/-!
Shallow embedding of the wallet/ledger layer of the millioner casino
platform (client-side `js/wallet-system.js`, `js/games.js`, and the
server callable functions in `functions/index.js`,
`functions/src/admin/balance-management.js`).

Modelling conventions:
- JS currency numbers are modelled as `Int` (all operations involved are
  additions and subtractions of caller-supplied amounts, so no rounding
  behaviour is relevant to the claims settled here).
- A Firestore document update performed inside `db.runTransaction` is
  modelled as a pure state transition; an exception thrown inside the
  transaction body aborts it with no partial write, which is modelled by
  returning `Except.error` (no new state is produced).
- Wallet documents whose numeric fields are missing are read as `0` in
  the source (`wallet.balance || 0`, `FieldValue.increment` on a missing
  field); the embedding therefore uses plain `Int` fields.
- Several operations in the source read documents with plain `get()`
  calls *before* entering `db.runTransaction`, and then issue writes
  computed from those stale reads inside the transaction.  Such
  operations are embedded in two phases: a read phase producing a
  snapshot, and a commit phase applying writes computed from the
  snapshot to whatever the state is at commit time.  A concurrent
  interleaving is a sequence of phase applications.
-/

namespace Millioner

/-- Error outcomes of the embedded operations.  Each constructor stands
for one `throw`/`HttpsError` site in the source. -/
inductive LedgerError where
  | invalidAmount
  | insufficientBalance
  | walletNotFound
  | recipientNotFound
  | selfTransfer
  | maxTransferExceeded
  | recipientNotActive
  | amountOutOfBounds
  | invalidMethod
  | invalidAddress
  | alreadyProcessed
  | txHashRequired
  | amountExceedsLimit
  | negativeBalance
  | exceedsMaxBalance
  | reasonRequired
  | unauthenticated
  | permissionDenied
  | userIdRequired
  | invalidArgument
  deriving DecidableEq, Repr

/-- A wallet document (collection `wallets`).  Fields are the numeric
and status fields the ledger operations touch.  `version` is `Option`
because only some creation paths write a `version` field (value `1`:
`BalanceSync._createUserWallet` and the auto-create branch of the
standalone `adminTransferToUser`); the other creation paths omit it.
`limitsMaxBalance` models `walletData.limits?.maxBalance` (absent on
most documents, defaulted to `1000000` where it is consulted). -/
structure Wallet where
  balance : Int
  bonusBalance : Int
  totalDeposited : Int
  totalWithdrawn : Int
  totalWon : Int
  totalLost : Int
  totalTransferred : Int
  totalReceived : Int
  totalGamesPlayed : Int
  version : Option Int
  status : String
  limitsMaxBalance : Option Int
  deriving DecidableEq, Repr

/-- A record in the `transactions` collection (the audit log).  The
source writes heterogeneous documents; the embedding keeps the fields
the claims are about.  `previousBalance`/`newBalance` are `Option`
because some record shapes (e.g. `deposit_request`) omit them.
`change` is the signed delta recorded by `admin_adjustment` records
(other record types store `0` here and carry their sign in `txType`).
`correlationId` models the shared `transactionId` of the
`transfer_out`/`transfer_in` pair written by `transferToUser`; records
written with independent auto-generated ids carry `none`. -/
structure TxRecord where
  userId : String
  txType : String
  amount : Int
  previousBalance : Option Int
  newBalance : Option Int
  status : String
  change : Int
  correlationId : Option String
  deriving DecidableEq, Repr

/-- Signed contribution of one audit record to an account balance:
credits count positive, debits negative (the sign convention of spec
section 3: "`amount` ... always recorded as a positive magnitude; sign
implied by `kind`").  Record types that carry no balance effect of
their own (e.g. `deposit_request`) contribute `0`; `admin_adjustment`
records carry their signed delta in `change`. -/
def TxRecord.signedAmount (t : TxRecord) : Int :=
  if t.txType = "deposit" ∨ t.txType = "game_win" ∨ t.txType = "receive" ∨
     t.txType = "transfer_in" ∨ t.txType = "bonus" ∨ t.txType = "admin_credit" then
    t.amount
  else if t.txType = "withdrawal" ∨ t.txType = "game_bet" ∨ t.txType = "send" ∨
     t.txType = "transfer_out" then
    -t.amount
  else if t.txType = "admin_adjustment" then
    t.change
  else
    0

/-- Signed sum of a list of audit records. -/
def entriesSum (l : List TxRecord) : Int :=
  (l.map TxRecord.signedAmount).sum

/-- A `withdrawals` collection document (withdrawal request). -/
structure WithdrawalDoc where
  amount : Int
  status : String
  deriving DecidableEq, Repr

/-- A `deposit_requests` collection document. -/
structure DepositReqDoc where
  amount : Int
  status : String
  deriving DecidableEq, Repr

/-- The slice of store state seen by the client-side `WalletSystem`
operations: the caller's wallet document, the audit log, and the
withdrawal-request collection.  The embedding fixes an existing wallet
document: the `walletDoc.exists === false` branches throw with no
writes and contribute no successful operation. -/
structure WSState where
  userId : String
  wallet : Wallet
  txLog : List TxRecord
  withdrawals : List WithdrawalDoc
  deriving DecidableEq, Repr

/-- Conservation predicate of the claims: the stored balance equals the
initial balance plus the signed sum of all recorded audit entries. -/
abbrev conserved (initialBalance : Int) (s : WSState) : Prop :=
  s.wallet.balance = initialBalance + entriesSum s.txLog

namespace WalletSystem

/-- Embedding of `WalletSystem.deposit` (`js/wallet-system.js` lines
146-197): reject non-positive amounts, then inside one transaction read
the wallet, add `amount` to `balance`, increment `totalDeposited`, and
write one completed `deposit` record. -/
def deposit (amount : Int) (s : WSState) : Except LedgerError WSState :=
  if amount ≤ 0 then
    .error .invalidAmount
  else
    let w := s.wallet
    let newBalance := w.balance + amount
    let rec1 : TxRecord :=
      { userId := s.userId
        txType := "deposit"
        amount := amount
        previousBalance := some w.balance
        newBalance := some newBalance
        status := "completed"
        change := 0
        correlationId := none }
    .ok { s with
          wallet := { w with balance := newBalance
                             totalDeposited := w.totalDeposited + amount }
          txLog := s.txLog ++ [rec1] }

/-- Embedding of `WalletSystem.withdraw` (`js/wallet-system.js` lines
199-267).  `cachedBalance` is `this.balance`, the client's cached
listener value: the sufficiency check `amount > this.balance` is made
against it *before* the transaction begins.  Inside the transaction the
wallet is re-read and `amount` is subtracted from the freshly read
balance unconditionally; a pending `withdrawal` audit record and a
pending withdrawal-request document are written in the same
transaction. -/
def withdraw (cachedBalance : Int) (amount : Int) (s : WSState) :
    Except LedgerError WSState :=
  if amount ≤ 0 then
    .error .invalidAmount
  else if cachedBalance < amount then
    .error .insufficientBalance
  else
    let w := s.wallet
    let newBalance := w.balance - amount
    let rec1 : TxRecord :=
      { userId := s.userId
        txType := "withdrawal"
        amount := amount
        previousBalance := some w.balance
        newBalance := some newBalance
        status := "pending"
        change := 0
        correlationId := none }
    .ok { s with
          wallet := { w with balance := newBalance
                             totalWithdrawn := w.totalWithdrawn + amount }
          txLog := s.txLog ++ [rec1]
          withdrawals := s.withdrawals ++ [{ amount := amount, status := "pending" }] }

/-- Embedding of `WalletSystem.placeBet` (`js/wallet-system.js` lines
269-323).  Like `withdraw`, the sufficiency check uses the cached
`this.balance`; inside the transaction the stake is subtracted from the
freshly read balance unconditionally and one completed `game_bet`
record is written. -/
def placeBet (cachedBalance : Int) (amount : Int) (s : WSState) :
    Except LedgerError WSState :=
  if amount ≤ 0 then
    .error .invalidAmount
  else if cachedBalance < amount then
    .error .insufficientBalance
  else
    let w := s.wallet
    let newBalance := w.balance - amount
    let rec1 : TxRecord :=
      { userId := s.userId
        txType := "game_bet"
        amount := amount
        previousBalance := some w.balance
        newBalance := some newBalance
        status := "completed"
        change := 0
        correlationId := none }
    .ok { s with
          wallet := { w with balance := newBalance
                             totalLost := w.totalLost + amount
                             totalGamesPlayed := w.totalGamesPlayed + 1 }
          txLog := s.txLog ++ [rec1] }

/-- Embedding of `WalletSystem.creditWinnings` (`js/wallet-system.js`
lines 325-378): reject non-positive amounts; inside one transaction add
`amount` to the freshly read balance, increment `totalWon`, and write
one completed `game_win` record. -/
def creditWinnings (amount : Int) (s : WSState) : Except LedgerError WSState :=
  if amount ≤ 0 then
    .error .invalidAmount
  else
    let w := s.wallet
    let newBalance := w.balance + amount
    let rec1 : TxRecord :=
      { userId := s.userId
        txType := "game_win"
        amount := amount
        previousBalance := some w.balance
        newBalance := some newBalance
        status := "completed"
        change := 0
        correlationId := none }
    .ok { s with
          wallet := { w with balance := newBalance
                             totalWon := w.totalWon + amount }
          txLog := s.txLog ++ [rec1] }

end WalletSystem

namespace Games

/-- Embedding of `placeBet` in `js/games.js` lines 4-30: read the
wallet with a plain (non-transactional) `getDoc`, reject if the read
balance is below the stake, flip a coin (`isWin`, the
`Math.random() > 0.5` outcome, passed as an oracle), and apply
`updateDoc(walletRef, { balance: increment(change) })` where `change`
is `+amount` on a win and `-amount` on a loss.  No audit record of any
kind is written. -/
def placeBet (isWin : Bool) (amount : Int) (s : WSState) :
    Except LedgerError WSState :=
  let currentBalance := s.wallet.balance
  if currentBalance < amount then
    .error .insufficientBalance
  else
    let change := if isWin then amount else -amount
    .ok { s with wallet := { s.wallet with balance := s.wallet.balance + change } }

end Games

/-- Store state for the two-wallet operations (`transferToUser`,
`sendMoney`): the sender's and the recipient's wallet documents plus
the shared audit log.  Both wallet documents exist (the not-found
branches throw with no writes). -/
structure TwoState where
  fromUserId : String
  toUserId : String
  fromW : Wallet
  toW : Wallet
  txLog : List TxRecord
  deriving DecidableEq, Repr

/-- Snapshot taken by `transferToUser`'s pre-transaction reads: copies
of both wallet documents as they were at read time. -/
structure TransferSnap where
  fromW : Wallet
  toW : Wallet
  deriving DecidableEq, Repr

/-- Read phase of `transferToUser` (`functions/index.js` lines
597-716).  The source validates the arguments, then reads both wallet
documents with plain `get()` calls *before* `db.runTransaction` and
performs the sufficiency and recipient-status checks on those reads.
The snapshot it returns is what the later write-only transaction will
use. -/
def transferToUserRead (amount : Int) (s : TwoState) :
    Except LedgerError TransferSnap :=
  if amount ≤ 0 then
    .error .invalidArgument
  else if 10000 < amount then
    .error .maxTransferExceeded
  else if s.fromUserId = s.toUserId then
    .error .selfTransfer
  else if s.fromW.balance < amount then
    .error .insufficientBalance
  else if s.toW.status ≠ "active" then
    .error .recipientNotActive
  else
    .ok { fromW := s.fromW, toW := s.toW }

/-- Write phase of `transferToUser`: the `db.runTransaction` body,
which contains no reads.  It sets both balances to values computed
from the pre-transaction snapshot and writes the two linked
`transfer_out`/`transfer_in` records sharing the generated
`transactionId` as correlation id. -/
def transferToUserCommit (amount : Int) (tid : String) (snap : TransferSnap)
    (s : TwoState) : TwoState :=
  let newFromBalance := snap.fromW.balance - amount
  let newToBalance := snap.toW.balance + amount
  let outRec : TxRecord :=
    { userId := s.fromUserId
      txType := "transfer_out"
      amount := amount
      previousBalance := some snap.fromW.balance
      newBalance := some newFromBalance
      status := "completed"
      change := 0
      correlationId := some tid }
  let inRec : TxRecord :=
    { userId := s.toUserId
      txType := "transfer_in"
      amount := amount
      previousBalance := some snap.toW.balance
      newBalance := some newToBalance
      status := "completed"
      change := 0
      correlationId := some tid }
  { s with
    fromW := { s.fromW with balance := newFromBalance
                            totalTransferred := snap.fromW.totalTransferred + amount }
    toW := { s.toW with balance := newToBalance
                        totalReceived := snap.toW.totalReceived + amount }
    txLog := s.txLog ++ [outRec, inRec] }

/-- `transferToUser` run without interference: the read phase followed
immediately by the write phase on the unchanged state. -/
def transferToUser (amount : Int) (tid : String) (s : TwoState) :
    Except LedgerError TwoState :=
  match transferToUserRead amount s with
  | .error e => .error e
  | .ok snap => .ok (transferToUserCommit amount tid snap s)

/-- `WalletSystem.deposit` acting on the sender's wallet inside the
two-wallet store: the same transition as `WalletSystem.deposit`
(balance plus amount, `totalDeposited` incremented, one completed
`deposit` record), used to model an operation that lands between
another operation's read phase and write phase. -/
def depositToSender (amount : Int) (s : TwoState) : Except LedgerError TwoState :=
  if amount ≤ 0 then
    .error .invalidAmount
  else
    let w := s.fromW
    let newBalance := w.balance + amount
    let rec1 : TxRecord :=
      { userId := s.fromUserId
        txType := "deposit"
        amount := amount
        previousBalance := some w.balance
        newBalance := some newBalance
        status := "completed"
        change := 0
        correlationId := none }
    .ok { s with
          fromW := { w with balance := newBalance
                            totalDeposited := w.totalDeposited + amount }
          txLog := s.txLog ++ [rec1] }

/-- Embedding of `WalletSystem.sendMoney` (`js/wallet-system.js` lines
380-484).  The cached-balance sufficiency check and the recipient
lookup happen before the transaction (`recipientFound` models a
non-empty recipient query, `recipientIsSelf` the self-send check on its
result); then, inside one transaction, both wallets are read with
`transaction.get`, both balances are updated from those fresh reads,
and one `send` and one `receive` record are written (with independent
auto-generated ids, no shared correlation id). -/
def sendMoney (cachedBalance : Int) (amount : Int)
    (recipientFound : Bool) (recipientIsSelf : Bool) (s : TwoState) :
    Except LedgerError TwoState :=
  if amount ≤ 0 then
    .error .invalidAmount
  else if cachedBalance < amount then
    .error .insufficientBalance
  else if ¬ recipientFound then
    .error .recipientNotFound
  else if recipientIsSelf then
    .error .selfTransfer
  else
    let senderNewBalance := s.fromW.balance - amount
    let recipientNewBalance := s.toW.balance + amount
    let sendRec : TxRecord :=
      { userId := s.fromUserId
        txType := "send"
        amount := amount
        previousBalance := some s.fromW.balance
        newBalance := some senderNewBalance
        status := "completed"
        change := 0
        correlationId := none }
    let receiveRec : TxRecord :=
      { userId := s.toUserId
        txType := "receive"
        amount := amount
        previousBalance := some s.toW.balance
        newBalance := some recipientNewBalance
        status := "completed"
        change := 0
        correlationId := none }
    .ok { s with
          fromW := { s.fromW with balance := senderNewBalance }
          toW := { s.toW with balance := recipientNewBalance }
          txLog := s.txLog ++ [sendRec, receiveRec] }

/-- Store state for settling one withdrawal request: the request
document, the requester's wallet, and the audit log. -/
structure PWState where
  userId : String
  request : WithdrawalDoc
  wallet : Wallet
  txLog : List TxRecord
  deriving DecidableEq, Repr

/-- Snapshot taken by `processWithdrawal`'s pre-transaction reads. -/
structure PWSnap where
  reqAmount : Int
  walletBalance : Int
  walletTotalWithdrawn : Int
  deriving DecidableEq, Repr

/-- Read phase of the approve path of `processWithdrawal`
(`functions/index.js` lines 978-1119).  The source reads the withdrawal
request and the wallet with plain `get()` calls *before*
`db.runTransaction`; the `status === 'pending'` check, and the
sufficient-funds re-check, are both made on those pre-transaction
reads.  (`txHash` must be non-empty for an approval.) -/
def processWithdrawalRead (txHash : String) (s : PWState) :
    Except LedgerError PWSnap :=
  if txHash = "" then
    .error .txHashRequired
  else if s.request.status ≠ "pending" then
    .error .alreadyProcessed
  else if s.wallet.balance < s.request.amount then
    .error .insufficientBalance
  else
    .ok { reqAmount := s.request.amount
          walletBalance := s.wallet.balance
          walletTotalWithdrawn := s.wallet.totalWithdrawn }

/-- Write phase of the approve path of `processWithdrawal`: the
`db.runTransaction` body, which contains no reads and no re-check.  It
marks the request approved, sets the balance to the value computed from
the pre-transaction snapshot, and writes one completed `withdrawal`
record. -/
def processWithdrawalCommit (snap : PWSnap) (s : PWState) : PWState :=
  let newBalance := snap.walletBalance - snap.reqAmount
  let rec1 : TxRecord :=
    { userId := s.userId
      txType := "withdrawal"
      amount := snap.reqAmount
      previousBalance := some snap.walletBalance
      newBalance := some newBalance
      status := "completed"
      change := 0
      correlationId := none }
  { s with
    request := { s.request with status := "approved" }
    wallet := { s.wallet with balance := newBalance
                              totalWithdrawn := snap.walletTotalWithdrawn + snap.reqAmount }
    txLog := s.txLog ++ [rec1] }

/-- Store state for settling one deposit request. -/
structure DepState where
  userId : String
  request : DepositReqDoc
  wallet : Wallet
  txLog : List TxRecord
  deriving DecidableEq, Repr

/-- An admin's approve/reject decision on a pending request. -/
inductive Decision where
  | approve
  | reject
  deriving DecidableEq, Repr

/-- Embedding of the transaction-compliant `processDeposit`
(`functions/index.js` lines 153-300): inside one `db.runTransaction`,
read the deposit request, fail with `AlreadyProcessed` unless its
status is still `pending`, then mark it approved/rejected; on approval
also read the wallet, credit the request amount, and write one
completed `deposit` record — all in the same transaction.  Rejection
has no balance effect. -/
def processDeposit (decision : Decision) (s : DepState) :
    Except LedgerError DepState :=
  if s.request.status ≠ "pending" then
    .error .alreadyProcessed
  else
    match decision with
    | .approve =>
      let w := s.wallet
      let newBalance := w.balance + s.request.amount
      let rec1 : TxRecord :=
        { userId := s.userId
          txType := "deposit"
          amount := s.request.amount
          previousBalance := some w.balance
          newBalance := some newBalance
          status := "completed"
          change := 0
          correlationId := none }
      .ok { s with
            request := { s.request with status := "approved" }
            wallet := { w with balance := newBalance
                               totalDeposited := w.totalDeposited + s.request.amount }
            txLog := s.txLog ++ [rec1] }
    | .reject =>
      .ok { s with request := { s.request with status := "rejected" } }

/-- Store state for the request-creation operations: the requester's
wallet plus the request collections and the audit log. -/
structure ReqState where
  userId : String
  wallet : Wallet
  txLog : List TxRecord
  withdrawals : List WithdrawalDoc
  depositRequests : List DepositReqDoc
  deriving DecidableEq, Repr

/-- Embedding of `createWithdrawalRequest` (`functions/index.js` lines
917-975): validate the amount against the configured
`[MIN_WITHDRAWAL, MAX_WITHDRAWAL] = [20, 5000]` bounds and the wallet
address, check sufficient funds on a read of the wallet, then write a
`pending` withdrawal-request document.  No wallet field is written. -/
def createWithdrawalRequest (amount : Int) (walletAddress : String) (s : ReqState) :
    Except LedgerError ReqState :=
  if amount < 20 ∨ 5000 < amount then
    .error .amountOutOfBounds
  else if walletAddress.length < 26 then
    .error .invalidAddress
  else if s.wallet.balance < amount then
    .error .insufficientBalance
  else
    .ok { s with withdrawals := s.withdrawals ++ [{ amount := amount, status := "pending" }] }

/-- The configured payment-method allow-list (`CONFIG.PAYMENT_METHODS`). -/
def paymentMethods : List String :=
  ["bank_transfer", "credit_card", "crypto", "paypal"]

/-- Embedding of `createDepositRequest` (`functions/index.js` lines
719-784): validate the amount against `[MIN_DEPOSIT, MAX_DEPOSIT] =
[10, 10000]` and the payment method against the allow-list, then write
a `pending` deposit-request document and a `pending` `deposit_request`
audit record.  No wallet field is written. -/
def createDepositRequest (amount : Int) (paymentMethod : String) (s : ReqState) :
    Except LedgerError ReqState :=
  if amount < 10 ∨ 10000 < amount then
    .error .amountOutOfBounds
  else if paymentMethod ∈ paymentMethods then
    let rec1 : TxRecord :=
      { userId := s.userId
        txType := "deposit_request"
        amount := amount
        previousBalance := none
        newBalance := none
        status := "pending"
        change := 0
        correlationId := none }
    .ok { s with
          depositRequests := s.depositRequests ++ [{ amount := amount, status := "pending" }]
          txLog := s.txLog ++ [rec1] }
  else
    .error .invalidMethod

/-- Store state for the admin balance-adjustment operations. -/
structure AdjState where
  userId : String
  wallet : Wallet
  txLog : List TxRecord
  deriving DecidableEq, Repr

/-- The three admin adjustment actions (`action ∈ {add, subtract, set}`
after the source's allow-list validation; any other string is rejected
before the store is touched). -/
inductive AdjustAction where
  | add
  | subtract
  | set
  deriving DecidableEq, Repr

/-- `walletData.limits?.maxBalance || 1000000`: the per-wallet balance
cap consulted by the fixed `adminAdjustBalance`. -/
def maxBalanceOf (w : Wallet) : Int :=
  w.limitsMaxBalance.getD 1000000

/-- The `switch (action)` balance computation shared by both
`adminAdjustBalance` implementations. -/
def adjustNewBalance (action : AdjustAction) (amount : Int) (balance : Int) : Int :=
  match action with
  | .add => balance + amount
  | .subtract => balance - amount
  | .set => amount

/-- The signed `change` recorded by both `adminAdjustBalance`
implementations. -/
def adjustChange (action : AdjustAction) (amount : Int) (balance : Int) : Int :=
  match action with
  | .add => amount
  | .subtract => -amount
  | .set => amount - balance

/-- The `!reason.trim()` check of the fixed `adminAdjustBalance`: the
reason is rejected when it contains nothing but whitespace. -/
def isBlank (reason : String) : Bool :=
  reason.toList.all Char.isWhitespace

/-- Embedding of the fixed `adminAdjustBalance` (`functions/index.js`
lines 2-150): validate `amount > 0`, the action allow-list, the
`$1,000,000` single-adjustment cap and a non-blank reason; then, inside
one `db.runTransaction`, read the wallet, compute the new balance
(`add`/`subtract`/`set`; `subtract` fails on insufficient balance),
reject a negative result and a result above the wallet's maximum
balance, and only then write the wallet and one `admin_adjustment`
record with the signed `change`. -/
def adminAdjustBalanceFixed (action : AdjustAction) (amount : Int) (reason : String)
    (s : AdjState) : Except LedgerError AdjState :=
  if amount ≤ 0 then
    .error .invalidArgument
  else if 1000000 < amount then
    .error .amountExceedsLimit
  else if isBlank reason then
    .error .reasonRequired
  else if action = .subtract ∧ s.wallet.balance < amount then
    .error .insufficientBalance
  else
    let w := s.wallet
    let newBalance := adjustNewBalance action amount w.balance
    let change := adjustChange action amount w.balance
    if newBalance < 0 then
      .error .negativeBalance
    else if maxBalanceOf w < newBalance then
      .error .exceedsMaxBalance
    else
      let rec1 : TxRecord :=
        { userId := s.userId
          txType := "admin_adjustment"
          amount := |change|
          previousBalance := some w.balance
          newBalance := some newBalance
          status := "completed"
          change := change
          correlationId := none }
      .ok { s with
            wallet := { w with balance := newBalance }
            txLog := s.txLog ++ [rec1] }

/-- Embedding of the second `adminAdjustBalance` (`functions/index.js`
lines 1122-1241): the same validations (without the reason-blank check
and without the per-wallet maximum-balance check); the wallet is read
with a plain `get()` before `db.runTransaction`, the new balance is
computed and the negative-result check performed on that read, and the
transaction then writes the wallet and one `admin_adjustment` record.
Run sequentially the operation is the same state transition. -/
def adminAdjustBalance (action : AdjustAction) (amount : Int) (s : AdjState) :
    Except LedgerError AdjState :=
  if amount ≤ 0 then
    .error .invalidArgument
  else if 1000000 < amount then
    .error .amountExceedsLimit
  else if action = .subtract ∧ s.wallet.balance < amount then
    .error .insufficientBalance
  else
    let w := s.wallet
    let newBalance := adjustNewBalance action amount w.balance
    let change := adjustChange action amount w.balance
    if newBalance < 0 then
      .error .negativeBalance
    else
      let rec1 : TxRecord :=
        { userId := s.userId
          txType := "admin_adjustment"
          amount := |change|
          previousBalance := some w.balance
          newBalance := some newBalance
          status := "completed"
          change := change
          correlationId := none }
      .ok { s with
            wallet := { w with balance := newBalance }
            txLog := s.txLog ++ [rec1] }

/-- The wallet document written by `WalletSystem.createNewWallet`
(`js/wallet-system.js` lines 49-100): the client-side creation path,
which starts the wallet at the `$100.00` welcome bonus (a separate
welcome-bonus audit record is written afterwards, outside any
transaction).  The document carries no `version` field. -/
def createNewWalletDoc : Wallet :=
  { balance := 100
    bonusBalance := 100
    totalDeposited := 0
    totalWithdrawn := 0
    totalWon := 0
    totalLost := 0
    totalTransferred := 0
    totalReceived := 0
    totalGamesPlayed := 0
    version := none
    status := "active"
    limitsMaxBalance := none }

/-- The wallet document written by the `createUserWallet` auth trigger
(`functions/index.js` lines 557-594): the server-side creation path,
which starts the wallet at balance `0.0` with no bonus and no `version`
field. -/
def createUserWalletDoc : Wallet :=
  { balance := 0
    bonusBalance := 0
    totalDeposited := 0
    totalWithdrawn := 0
    totalWon := 0
    totalLost := 0
    totalTransferred := 0
    totalReceived := 0
    totalGamesPlayed := 0
    version := none
    status := "active"
    limitsMaxBalance := none }

/-- The wallet document written by `BalanceSync._createUserWallet`
(`js/wallet-system.js` lines 845-878): starts the wallet at balance `0`
and is the only creation path that writes a `version` field (value
`1`; the source's `totalDeposits` field is mapped to
`totalDeposited`). -/
def balanceSyncWalletDoc : Wallet :=
  { balance := 0
    bonusBalance := 0
    totalDeposited := 0
    totalWithdrawn := 0
    totalWon := 0
    totalLost := 0
    totalTransferred := 0
    totalReceived := 0
    totalGamesPlayed := 0
    version := some 1
    status := "active"
    limitsMaxBalance := none }

/-- The wallet document written by the auto-create branch of the
standalone `adminTransferToUser` callable (the unnamed source file
initializing a missing target wallet): the wallet starts directly at
the transferred amount, with `totalDeposits` equal to that amount and
`version` `1`. -/
def adminTransferCreateDoc (amount : Int) : Wallet :=
  { balance := amount
    bonusBalance := 0
    totalDeposited := amount
    totalWithdrawn := 0
    totalWon := 0
    totalLost := 0
    totalTransferred := 0
    totalReceived := 0
    totalGamesPlayed := 0
    version := some 1
    status := "active"
    limitsMaxBalance := none }

/-- An `admins` collection document. -/
structure AdminDoc where
  active : Bool
  email : String
  role : String
  deriving DecidableEq, Repr

/-- The admin check of `getTransactionHistory`: the caller's uid has an
`admins` document and that document's `active` flag is set. -/
def isActiveAdmin (admins : String → Option AdminDoc) (uid : String) : Bool :=
  match admins uid with
  | some a => a.active
  | none => false

/-- The payload `getTransactionHistory` returns: the requested user's
transaction page and their wallet summary. -/
structure HistoryResult where
  transactions : List TxRecord
  walletBalance : Option Int
  deriving DecidableEq, Repr

/-- Embedding of `getTransactionHistory`
(`functions/src/admin/balance-management.js` lines 123-204):
unauthenticated calls fail with `unauthenticated`; a missing `userId`
fails with `invalid-argument`; a caller who is neither the requested
user nor a listed active admin fails with `permission-denied` before
any transaction data is read; otherwise the requested user's
transactions are returned, paginated by `offset = (page-1)*limit`. -/
def getTransactionHistory (authUid : Option String) (userId : String)
    (page : Nat) (pageLimit : Nat) (admins : String → Option AdminDoc)
    (txs : List TxRecord) (wallets : String → Option Wallet) :
    Except LedgerError HistoryResult :=
  match authUid with
  | none => .error .unauthenticated
  | some uid =>
    if userId = "" then
      .error .userIdRequired
    else if uid = userId ∨ isActiveAdmin admins uid then
      let userTxs := txs.filter (fun t => t.userId = userId)
      .ok { transactions := (userTxs.drop ((page - 1) * pageLimit)).take pageLimit
            walletBalance := (wallets userId).map (fun w => w.balance) }
    else
      .error .permissionDenied

/-- A plain active wallet with the given balance and zeroed aggregates,
used as the starting point of the concrete scenarios below. -/
def mkWallet (b : Int) : Wallet :=
  { balance := b
    bonusBalance := 0
    totalDeposited := 0
    totalWithdrawn := 0
    totalWon := 0
    totalLost := 0
    totalTransferred := 0
    totalReceived := 0
    totalGamesPlayed := 0
    version := none
    status := "active"
    limitsMaxBalance := none }

/-- Scenario state for the conservation claim: a wallet holding `100`
with an empty audit log. -/
def c1Start : WSState :=
  { userId := "alice", wallet := mkWallet 100, txLog := [], withdrawals := [] }

/-- The state `Games.placeBet` leaves behind after a won `50` coin-flip
bet on `c1Start`: the balance moved to `150` and the audit log is still
empty. -/
def c1After : WSState :=
  { c1Start with wallet := mkWallet 150 }

/-- Scenario state for the debit claim: the stored wallet document
holds `30` (the client's cached `this.balance` will be the stale value
`100`). -/
def c2Start : WSState :=
  { userId := "bob", wallet := mkWallet 30, txLog := [], withdrawals := [] }

/-- The state `WalletSystem.withdraw` leaves behind on `c2Start` when
the stale cached balance `100` passes the pre-transaction check: the
stored balance is driven to `-20`. -/
def c2After : WSState :=
  { userId := "bob"
    wallet := { mkWallet (-20) with totalWithdrawn := 50 }
    txLog := [{ userId := "bob"
                txType := "withdrawal"
                amount := 50
                previousBalance := some 30
                newBalance := some (-20)
                status := "pending"
                change := 0
                correlationId := none }]
    withdrawals := [{ amount := 50, status := "pending" }] }

/-- Scenario state for the transfer claim: sender `alice` holds `100`,
recipient `bob` holds `0`. -/
def c3Start : TwoState :=
  { fromUserId := "alice", toUserId := "bob", fromW := mkWallet 100, toW := mkWallet 0, txLog := [] }

/-- The snapshot `transferToUserRead` takes of `c3Start`. -/
def c3Snap : TransferSnap :=
  { fromW := mkWallet 100, toW := mkWallet 0 }

/-- `c3Start` after a concurrent `40` deposit to the sender lands
between `transferToUser`'s read phase and its write phase. -/
def c3Mid : TwoState :=
  { c3Start with
    fromW := { mkWallet 140 with totalDeposited := 40 }
    txLog := [{ userId := "alice"
                txType := "deposit"
                amount := 40
                previousBalance := some 100
                newBalance := some 140
                status := "completed"
                change := 0
                correlationId := none }] }

/-- Scenario state for the settlement claim: one `pending` withdrawal
request for `50` against a wallet holding `100`. -/
def c4Start : PWState :=
  { userId := "carol"
    request := { amount := 50, status := "pending" }
    wallet := mkWallet 100
    txLog := [] }

/-- The snapshot both concurrent `processWithdrawal` calls take of
`c4Start` before either write transaction runs. -/
def c4Snap : PWSnap :=
  { reqAmount := 50, walletBalance := 100, walletTotalWithdrawn := 0 }

/-- The state after both concurrent `processWithdrawal` approvals of
the same request commit, each applying the write phase computed from
the shared pre-transaction snapshot. -/
def c4Final : PWState :=
  processWithdrawalCommit c4Snap (processWithdrawalCommit c4Snap c4Start)

/-- Scenario state for the request-creation frame claim: a wallet
holding `100` with empty collections. -/
def c5Start : WSState :=
  { userId := "dave", wallet := mkWallet 100, txLog := [], withdrawals := [] }

/-- The state `WalletSystem.withdraw` leaves behind on `c5Start`: a
pending withdrawal request was created and, in the same transaction,
the balance was debited from `100` to `50`. -/
def c5After : WSState :=
  { userId := "dave"
    wallet := { mkWallet 50 with totalWithdrawn := 50 }
    txLog := [{ userId := "dave"
                txType := "withdrawal"
                amount := 50
                previousBalance := some 100
                newBalance := some 50
                status := "pending"
                change := 0
                correlationId := none }]
    withdrawals := [{ amount := 50, status := "pending" }] }

/-- Server-side request-creation scenario state. -/
def c5Req : ReqState :=
  { userId := "dave"
    wallet := mkWallet 100
    txLog := []
    withdrawals := []
    depositRequests := [] }

/-- The state `createWithdrawalRequest` leaves behind on `c5Req`: only
the pending request document is added. -/
def c5ReqAfter : ReqState :=
  { c5Req with withdrawals := [{ amount := 50, status := "pending" }] }

/-- A syntactically valid destination wallet address (26 characters). -/
def c5Address : String := "abcdefghijklmnopqrstuvwxyz"

/-- The state `createDepositRequest` leaves behind on `c5Req`: the
pending request document and its pending `deposit_request` audit
record are added; the wallet is untouched. -/
def c5DepAfter : ReqState :=
  { c5Req with
    depositRequests := [{ amount := 50, status := "pending" }]
    txLog := [{ userId := "dave"
                txType := "deposit_request"
                amount := 50
                previousBalance := none
                newBalance := none
                status := "pending"
                change := 0
                correlationId := none }] }

/-- Scenario state for the version claim: a wallet created by
`BalanceSync` (so it carries `version = 1`) now holding `100`. -/
def c6Start : AdjState :=
  { userId := "erin", wallet := { mkWallet 100 with version := some 1 }, txLog := [] }

/-- The state `adminAdjustBalance`'s `add 50` leaves behind on
`c6Start`: the balance moved to `150` and `version` is still `1`. -/
def c6After : AdjState :=
  { userId := "erin"
    wallet := { mkWallet 150 with version := some 1 }
    txLog := [{ userId := "erin"
                txType := "admin_adjustment"
                amount := 50
                previousBalance := some 100
                newBalance := some 150
                status := "completed"
                change := 50
                correlationId := none }] }

/-- Scenario state for the idempotency claim: sender `alice` holds
`100`, recipient `bob` holds `0`. -/
def c8Start : TwoState :=
  { fromUserId := "alice", toUserId := "bob", fromW := mkWallet 100, toW := mkWallet 0, txLog := [] }

/-- The state after the first `transferToUser` of `30`. -/
def c8Mid : TwoState :=
  transferToUserCommit 30 "t1" { fromW := mkWallet 100, toW := mkWallet 0 } c8Start

/-- The state after replaying the identical `transferToUser` call (the
source generates a fresh `transactionId` for the replay; nothing in the
payload identifies it as a retry). -/
def c8End : TwoState :=
  transferToUserCommit 30 "t2" { fromW := c8Mid.fromW, toW := c8Mid.toW } c8Mid

/-- The replayed call sequence: the same transfer payload submitted
twice in a row. -/
def c8Replay : Except LedgerError TwoState :=
  (transferToUser 30 "t1" c8Start).bind (fun s1 => transferToUser 30 "t2" s1)

/-- Scenario state for the admin-adjustment safety witness. -/
def c9Start : AdjState :=
  { userId := "frank", wallet := mkWallet 100, txLog := [] }

/-- The state `adminAdjustBalanceFixed`'s `add 50` leaves behind on
`c9Start`. -/
def c9After : AdjState :=
  { userId := "frank"
    wallet := mkWallet 150
    txLog := [{ userId := "frank"
                txType := "admin_adjustment"
                amount := 50
                previousBalance := some 100
                newBalance := some 150
                status := "completed"
                change := 50
                correlationId := none }] }

/-- Splitting the signed entry sum over an appended log segment. -/
theorem entriesSum_append (l1 l2 : List TxRecord) :
    entriesSum (l1 ++ l2) = entriesSum l1 + entriesSum l2 := by
  simp [entriesSum]

/-- Claim C1: the conservation invariant `balance = initial + signed
entry sum` is supposed to hold after any sequence of successful ledger
operations because every balance mutation writes its paired entry
atomically.  The `placeBet` of `js/games.js` refutes this on the code:
starting from a conserved state holding `100`, a successful won bet of
`50` moves the stored balance to `150` while writing no audit record
at all, so the balance no longer equals the initial balance plus the
signed entry sum. -/
theorem games_placeBet_breaks_conservation :
    conserved 100 c1Start
  ∧ Games.placeBet true 50 c1Start = .ok c1After
  ∧ c1After.txLog = []
  ∧ ¬ conserved 100 c1After := by
  refine ⟨by decide, rfl, rfl, by decide⟩

/-- Claim C2: the sufficiency check of `WalletSystem.withdraw` is the
pre-transaction comparison against the client's cached `this.balance`,
and the transaction body subtracts from the freshly read stored balance
unconditionally.  With a stale cache of `100` and a stored balance of
`30`, a withdrawal of `50` succeeds and stores the negative balance
`-20`, refuting both the check-inside-the-transaction reading of the
claim and the no-negative-balance consequence. -/
theorem withdraw_stores_negative_balance :
    c2Start.wallet.balance = 30
  ∧ WalletSystem.withdraw 100 50 c2Start = .ok c2After
  ∧ c2After.wallet.balance = -20
  ∧ c2After.wallet.balance < 0 := by
  refine ⟨rfl, rfl, rfl, by decide⟩

/-- Claim C3: `transferToUser` reads both wallets with plain `get()`
calls before `db.runTransaction` and commits balances computed from
that snapshot inside a write-only transaction.  With sender `alice` at
`100` and a concurrent `40` deposit landing between the read phase and
the write phase (sender then holds `140`), committing a `50` transfer
sets the sender's balance to `50`: the source balance does not decrease
by exactly the transferred amount (`140 - 50 = 90` would be expected)
and the concurrent deposit is silently overwritten. -/
theorem transferToUser_loses_concurrent_update :
    transferToUserRead 50 c3Start = .ok c3Snap
  ∧ depositToSender 40 c3Start = .ok c3Mid
  ∧ c3Mid.fromW.balance = 140
  ∧ (transferToUserCommit 50 "t1" c3Snap c3Mid).fromW.balance = 50
  ∧ (transferToUserCommit 50 "t1" c3Snap c3Mid).fromW.balance ≠ c3Mid.fromW.balance - 50 := by
  refine ⟨rfl, rfl, rfl, rfl, by decide⟩

/-- Claim C4: `processWithdrawal` performs the `status == 'pending'`
check and the funds re-check on reads taken before `db.runTransaction`,
and its transaction body only writes.  Two concurrent approvals of the
same pending `50` request against a wallet holding `100` both pass the
pre-transaction read phase and both commit: the request is settled
twice — two completed withdrawal records (signed sum `-100`, i.e. two
recorded payouts) are written — while the stored balance and
`totalWithdrawn` only reflect a single `50` debit, because the second
write-only transaction was computed from the same stale snapshot.  The
second resolution is not rejected with `AlreadyProcessed` as the claim
requires. -/
theorem processWithdrawal_double_settlement :
    processWithdrawalRead "0xaaa" c4Start = .ok c4Snap
  ∧ processWithdrawalRead "0xbbb" c4Start = .ok c4Snap
  ∧ c4Final.request.status = "approved"
  ∧ c4Final.wallet.balance = 50
  ∧ c4Final.wallet.totalWithdrawn = 50
  ∧ c4Final.txLog.length = 2
  ∧ entriesSum c4Final.txLog = -100 := by
  refine ⟨rfl, rfl, rfl, rfl, rfl, rfl, by decide⟩

/-- Claim C5, counterexample: the client-side `WalletSystem.withdraw`
is a request-creation path — it writes a `pending` withdrawal-request
document — and in the same transaction it also debits the balance from
`100` to `50`, so request creation is not balance-neutral on every
path. -/
theorem withdraw_request_creation_touches_balance :
    WalletSystem.withdraw 100 50 c5Start = .ok c5After
  ∧ c5After.withdrawals = [{ amount := 50, status := "pending" }]
  ∧ c5Start.wallet.balance = 100
  ∧ c5After.wallet.balance = 50
  ∧ c5After.wallet.balance ≠ c5Start.wallet.balance := by
  refine ⟨rfl, rfl, rfl, rfl, by decide⟩

/-- Claim C5 (amended): the server-side request-creation callables
satisfy the frame property — a successful `createWithdrawalRequest`
leaves the wallet document and the audit log untouched and only
appends one `pending` withdrawal-request document, and a successful
`createDepositRequest` leaves the wallet untouched and appends one
`pending` deposit-request document — while the client-side
`WalletSystem.withdraw` path debits the balance at request-creation
time instead. -/
theorem createRequest_frame (amount : Int) (walletAddress paymentMethod : String)
    (s : ReqState) :
    (∀ s', createWithdrawalRequest amount walletAddress s = .ok s' →
        s'.wallet = s.wallet ∧ s'.txLog = s.txLog
      ∧ s'.withdrawals = s.withdrawals ++ [{ amount := amount, status := "pending" }])
  ∧ (∀ s', createDepositRequest amount paymentMethod s = .ok s' →
        s'.wallet = s.wallet
      ∧ s'.depositRequests = s.depositRequests ++ [{ amount := amount, status := "pending" }]) := by
  constructor
  · intro s' h
    unfold createWithdrawalRequest at h
    split_ifs at h
    all_goals first
      | exact Except.noConfusion h
      | (injection h with h
         subst h
         exact ⟨rfl, rfl, rfl⟩)
  · intro s' h
    unfold createDepositRequest at h
    split_ifs at h
    all_goals first
      | exact Except.noConfusion h
      | (injection h with h
         subst h
         exact ⟨rfl, rfl⟩)

/-- Witness for `createRequest_frame` at concrete inputs: a `50`
withdrawal request and a `50` card deposit request against a wallet
holding `100`. -/
theorem createRequest_frame_witness :
    (c5ReqAfter.wallet = c5Req.wallet ∧ c5ReqAfter.txLog = c5Req.txLog
      ∧ c5ReqAfter.withdrawals = c5Req.withdrawals ++ [{ amount := 50, status := "pending" }])
  ∧ (c5DepAfter.wallet = c5Req.wallet
      ∧ c5DepAfter.depositRequests = c5Req.depositRequests ++ [{ amount := 50, status := "pending" }]) := by
  constructor
  · exact (createRequest_frame 50 c5Address "credit_card" c5Req).1 c5ReqAfter (by rfl)
  · exact (createRequest_frame 50 c5Address "credit_card" c5Req).2 c5DepAfter (by rfl)

/-- Claim C6, counterexample: a successful `adminAdjustBalance` on a
wallet carrying `version = 1` leaves `version` at `1` — the version
counter is not incremented to `2` by the mutation. -/
theorem adjust_does_not_increment_version :
    adminAdjustBalance .add 50 c6Start = .ok c6After
  ∧ c6Start.wallet.version = some 1
  ∧ c6After.wallet.version = some 1
  ∧ c6After.wallet.version ≠ some 2 := by
  refine ⟨rfl, rfl, rfl, by decide⟩

/-- Claim C6 (amended): the creation paths that write a `version`
field initialize it to `1` (`BalanceSync._createUserWallet` and the
auto-create branch of the standalone `adminTransferToUser`), the other
creation paths write none, and no balance mutation path writes
`version` at all — every successful mutation leaves `version`
unchanged, and no stale-version check exists (conflict handling is
delegated entirely to the store's transactions). -/
theorem version_never_incremented :
    balanceSyncWalletDoc.version = some 1
  ∧ (∀ a : Int, (adminTransferCreateDoc a).version = some 1)
  ∧ createNewWalletDoc.version = none
  ∧ createUserWalletDoc.version = none
  ∧ (∀ a amt s s', adminAdjustBalance a amt s = .ok s' →
      s'.wallet.version = s.wallet.version)
  ∧ (∀ a amt r s s', adminAdjustBalanceFixed a amt r s = .ok s' →
      s'.wallet.version = s.wallet.version)
  ∧ (∀ amt s s', WalletSystem.deposit amt s = .ok s' →
      s'.wallet.version = s.wallet.version)
  ∧ (∀ cb amt s s', WalletSystem.withdraw cb amt s = .ok s' →
      s'.wallet.version = s.wallet.version) := by
  refine ⟨rfl, fun a => rfl, rfl, rfl, ?_, ?_, ?_, ?_⟩
  · intro a amt s s' h
    simp only [adminAdjustBalance] at h
    split_ifs at h
    all_goals first
      | exact Except.noConfusion h
      | (injection h with h
         subst h
         rfl)
  · intro a amt r s s' h
    simp only [adminAdjustBalanceFixed] at h
    split_ifs at h
    all_goals first
      | exact Except.noConfusion h
      | (injection h with h
         subst h
         rfl)
  · intro amt s s' h
    unfold WalletSystem.deposit at h
    split_ifs at h
    all_goals first
      | exact Except.noConfusion h
      | (injection h with h
         subst h
         rfl)
  · intro cb amt s s' h
    unfold WalletSystem.withdraw at h
    split_ifs at h
    all_goals first
      | exact Except.noConfusion h
      | (injection h with h
         subst h
         rfl)

/-- Witness for `version_never_incremented`: the concrete `add 50`
adjustment on `c6Start`. -/
theorem version_never_incremented_witness :
    c6After.wallet.version = c6Start.wallet.version :=
  version_never_incremented.2.2.2.2.1 .add 50 c6Start c6After (by rfl)

/-- Claim C7, counterexample: the two account-creation paths
`WalletSystem.createNewWallet` and the `createUserWallet` auth trigger
initialize the balance to different constants (`100` versus `0`), so
there is no single starting-bonus constant shared by every
creation path. -/
theorem creation_bonus_not_uniform :
    createNewWalletDoc.balance = 100
  ∧ createUserWalletDoc.balance = 0
  ∧ createNewWalletDoc.balance ≠ createUserWalletDoc.balance := by
  refine ⟨rfl, rfl, by decide⟩

/-- Claim C7 (amended): each creation path uses its own initial
balance — `100` (welcome bonus) in `WalletSystem.createNewWallet`, `0`
in the `createUserWallet` auth trigger and in
`BalanceSync._createUserWallet`, and the transferred amount itself in
the auto-create branch of the standalone `adminTransferToUser`. -/
theorem creation_balance_per_path :
    createNewWalletDoc.balance = 100
  ∧ createUserWalletDoc.balance = 0
  ∧ balanceSyncWalletDoc.balance = 0
  ∧ (∀ a : Int, (adminTransferCreateDoc a).balance = a) := by
  exact ⟨rfl, rfl, rfl, fun a => rfl⟩

/-- Effect of one successful `transferToUser` run: the sender loses
exactly the amount, the recipient gains it, and two records are
appended. -/
theorem transferToUser_ok {amount : Int} {tid : String} {s s' : TwoState}
    (h : transferToUser amount tid s = .ok s') :
    s'.fromW.balance = s.fromW.balance - amount
  ∧ s'.toW.balance = s.toW.balance + amount
  ∧ s'.txLog.length = s.txLog.length + 2 := by
  simp only [transferToUser, transferToUserRead] at h
  split_ifs at h
  all_goals first
    | exact Except.noConfusion h
    | (injection h with h
       subst h
       refine ⟨rfl, rfl, ?_⟩
       simp [transferToUserCommit])

/-- Claim C8, counterexample: no mutating call carries an idempotency
key (the replayed `transferToUser` payload is indistinguishable from a
first attempt; the source generates a fresh `transactionId` per call),
so submitting the identical `30` transfer twice applies it twice: the
sender ends at `40` instead of `70`, the recipient at `60` instead of
`30`, and four records exist instead of two. -/
theorem transfer_replay_applies_twice :
    c8Replay = .ok c8End
  ∧ c8End.fromW.balance = 40
  ∧ c8End.toW.balance = 60
  ∧ c8End.txLog.length = 4 := by
  refine ⟨rfl, rfl, rfl, rfl⟩

/-- Claim C8 (amended): the code has no idempotency-key detection;
whenever a replay of an identical `transferToUser` call validates
again, it is applied again — after two successful identical calls the
sender's balance has dropped by twice the amount and four records
(two `transfer_out`/`transfer_in` pairs) have been appended. -/
theorem transfer_replay_double_applies (amount : Int) (t1 t2 : String)
    (s s1 s2 : TwoState)
    (h1 : transferToUser amount t1 s = .ok s1)
    (h2 : transferToUser amount t2 s1 = .ok s2) :
    s2.fromW.balance = s.fromW.balance - 2 * amount
  ∧ s2.txLog.length = s.txLog.length + 4 := by
  obtain ⟨e1, f1, g1⟩ := transferToUser_ok h1
  obtain ⟨e2, f2, g2⟩ := transferToUser_ok h2
  constructor
  · rw [e2, e1]; ring
  · omega

/-- Witness for `transfer_replay_double_applies`: the concrete replayed
`30` transfer from `c8Start`. -/
theorem transfer_replay_double_applies_witness :
    c8End.fromW.balance = c8Start.fromW.balance - 2 * 30
  ∧ c8End.txLog.length = c8Start.txLog.length + 4 :=
  transfer_replay_double_applies 30 "t1" "t2" c8Start c8Mid c8End (by rfl) (by rfl)

/-- Claim C9: both `adminAdjustBalance` implementations either fail
with no state change (an aborted transaction writes nothing — failures
return no state in this embedding) or leave the stored balance
non-negative; the fixed variant additionally keeps it below the
wallet's maximum-balance cap; and a `subtract` larger than the current
balance is always rejected by both. -/
theorem adminAdjust_safety :
    (∀ a amt r s s', adminAdjustBalanceFixed a amt r s = .ok s' →
        0 ≤ s'.wallet.balance ∧ s'.wallet.balance ≤ maxBalanceOf s.wallet)
  ∧ (∀ a amt s s', adminAdjustBalance a amt s = .ok s' → 0 ≤ s'.wallet.balance)
  ∧ (∀ amt r s s', s.wallet.balance < amt →
      adminAdjustBalanceFixed .subtract amt r s ≠ .ok s')
  ∧ (∀ amt s s', s.wallet.balance < amt →
      adminAdjustBalance .subtract amt s ≠ .ok s') := by
  refine ⟨?_, ?_, ?_, ?_⟩
  · intro a amt r s s' h
    simp only [adminAdjustBalanceFixed] at h
    split_ifs at h
    all_goals first
      | exact Except.noConfusion h
      | (injection h with h
         subst h
         dsimp only
         exact ⟨by omega, by omega⟩)
  · intro a amt s s' h
    simp only [adminAdjustBalance] at h
    split_ifs at h
    all_goals first
      | exact Except.noConfusion h
      | (injection h with h
         subst h
         dsimp only
         omega)
  · intro amt r s s' h1 h
    simp only [adminAdjustBalanceFixed] at h
    split_ifs at h
    all_goals first
      | exact Except.noConfusion h
      | simp_all
  · intro amt s s' h1 h
    simp only [adminAdjustBalance] at h
    split_ifs at h
    all_goals first
      | exact Except.noConfusion h
      | simp_all

/-- Witness for `adminAdjust_safety`: the concrete `add 50` adjustment
on a wallet holding `100`, and the rejection of a `500` subtraction
from the same wallet. -/
theorem adminAdjust_safety_witness :
    (0 ≤ c9After.wallet.balance ∧ c9After.wallet.balance ≤ maxBalanceOf c9Start.wallet)
  ∧ adminAdjustBalance .subtract 500 c9Start ≠ .ok c9After := by
  constructor
  · exact adminAdjust_safety.1 .add 50 "Admin adjustment" c9Start c9After (by rfl)
  · exact adminAdjust_safety.2.2.2 500 c9Start c9After (by decide)

/-- Claim C10: `getTransactionHistory` fails unauthenticated calls with
`unauthenticated`; data is only ever returned when the caller is the
requested user or a listed active admin; every other authenticated
caller receives `permission-denied` and no transaction data. -/
theorem history_access_control (userId : String) (page pageLimit : Nat)
    (admins : String → Option AdminDoc) (txs : List TxRecord)
    (wallets : String → Option Wallet) :
    getTransactionHistory none userId page pageLimit admins txs wallets
      = .error .unauthenticated
  ∧ (∀ uid r, getTransactionHistory (some uid) userId page pageLimit admins txs wallets
        = .ok r → uid = userId ∨ isActiveAdmin admins uid = true)
  ∧ (∀ uid, userId ≠ "" → uid ≠ userId → isActiveAdmin admins uid = false →
      getTransactionHistory (some uid) userId page pageLimit admins txs wallets
        = .error .permissionDenied) := by
  refine ⟨rfl, ?_, ?_⟩
  · intro uid r h
    simp only [getTransactionHistory] at h
    split_ifs at h with h1 h2
    all_goals first
      | exact Except.noConfusion h
      | exact h2
  · intro uid hne huid hadmin
    simp only [getTransactionHistory]
    split_ifs with h1 h2
    · exact absurd h1 hne
    · exact absurd h2 (by simp [huid, hadmin])
    · rfl

/-- Witness for `history_access_control`: the authenticated non-admin
caller `mallory` asking for `alice`'s history is denied. -/
theorem history_access_control_witness :
    getTransactionHistory (some "mallory") "alice" 1 50 (fun _ => none) []
      (fun _ => none) = .error .permissionDenied :=
  (history_access_control "alice" 1 50 (fun _ => none) [] (fun _ => none)).2.2
    "mallory" (by decide) (by decide) (by rfl)

/-- The signed sum of a one-record log. -/
theorem entriesSum_singleton (t : TxRecord) : entriesSum [t] = t.signedAmount := by
  simp [entriesSum]

/-- Conservation is preserved by any step that moves the balance by
`d` while appending one record whose signed amount is `d`. -/
theorem conserved_extend {init d : Int} {s s' : WSState} {t : TxRecord}
    (hb : s'.wallet.balance = s.wallet.balance + d)
    (hl : s'.txLog = s.txLog ++ [t])
    (ht : t.signedAmount = d)
    (hc : conserved init s) : conserved init s' := by
  show s'.wallet.balance = init + entriesSum s'.txLog
  rw [hb, hl, entriesSum_append, entriesSum_singleton, ht, hc]
  ring

/-- A successful `WalletSystem.deposit` moves the balance by `+amount`
and appends one record of signed amount `+amount`. -/
theorem deposit_delta {amount : Int} {s s' : WSState}
    (h : WalletSystem.deposit amount s = .ok s') :
    s'.wallet.balance = s.wallet.balance + amount
  ∧ ∃ t, s'.txLog = s.txLog ++ [t] ∧ t.signedAmount = amount := by
  simp only [WalletSystem.deposit] at h
  split_ifs at h
  all_goals first
    | exact Except.noConfusion h
    | (injection h with h
       subst h
       exact ⟨rfl, _, rfl, rfl⟩)

/-- A successful `WalletSystem.withdraw` moves the balance by
`-amount` and appends one record of signed amount `-amount`. -/
theorem withdraw_delta {cb amount : Int} {s s' : WSState}
    (h : WalletSystem.withdraw cb amount s = .ok s') :
    s'.wallet.balance = s.wallet.balance + (-amount)
  ∧ ∃ t, s'.txLog = s.txLog ++ [t] ∧ t.signedAmount = -amount := by
  simp only [WalletSystem.withdraw] at h
  split_ifs at h
  all_goals first
    | exact Except.noConfusion h
    | (injection h with h
       subst h
       exact ⟨by dsimp only; omega, _, rfl, rfl⟩)

/-- A successful `WalletSystem.placeBet` moves the balance by
`-amount` and appends one record of signed amount `-amount`. -/
theorem placeBet_delta {cb amount : Int} {s s' : WSState}
    (h : WalletSystem.placeBet cb amount s = .ok s') :
    s'.wallet.balance = s.wallet.balance + (-amount)
  ∧ ∃ t, s'.txLog = s.txLog ++ [t] ∧ t.signedAmount = -amount := by
  simp only [WalletSystem.placeBet] at h
  split_ifs at h
  all_goals first
    | exact Except.noConfusion h
    | (injection h with h
       subst h
       exact ⟨by dsimp only; omega, _, rfl, rfl⟩)

/-- A successful `WalletSystem.creditWinnings` moves the balance by
`+amount` and appends one record of signed amount `+amount`. -/
theorem creditWinnings_delta {amount : Int} {s s' : WSState}
    (h : WalletSystem.creditWinnings amount s = .ok s') :
    s'.wallet.balance = s.wallet.balance + amount
  ∧ ∃ t, s'.txLog = s.txLog ++ [t] ∧ t.signedAmount = amount := by
  simp only [WalletSystem.creditWinnings] at h
  split_ifs at h
  all_goals first
    | exact Except.noConfusion h
    | (injection h with h
       subst h
       exact ⟨rfl, _, rfl, rfl⟩)

/-- The four entry-writing `WalletSystem` operations each preserve the
conservation invariant (it is the entry-less `Games.placeBet` that
breaks it). -/
theorem walletSystem_ops_conserve (init : Int) (s s' : WSState) :
    (∀ amount, WalletSystem.deposit amount s = .ok s' →
      conserved init s → conserved init s')
  ∧ (∀ cb amount, WalletSystem.withdraw cb amount s = .ok s' →
      conserved init s → conserved init s')
  ∧ (∀ cb amount, WalletSystem.placeBet cb amount s = .ok s' →
      conserved init s → conserved init s')
  ∧ (∀ amount, WalletSystem.creditWinnings amount s = .ok s' →
      conserved init s → conserved init s') := by
  refine ⟨?_, ?_, ?_, ?_⟩
  · intro amount h hc
    obtain ⟨hb, t, hl, ht⟩ := deposit_delta h
    exact conserved_extend hb hl ht hc
  · intro cb amount h hc
    obtain ⟨hb, t, hl, ht⟩ := withdraw_delta h
    exact conserved_extend hb hl ht hc
  · intro cb amount h hc
    obtain ⟨hb, t, hl, ht⟩ := placeBet_delta h
    exact conserved_extend hb hl ht hc
  · intro amount h hc
    obtain ⟨hb, t, hl, ht⟩ := creditWinnings_delta h
    exact conserved_extend hb hl ht hc

/-- Transfer symmetry does hold for the atomic `sendMoney` path, which
reads both wallets inside the transaction it writes in: the sender
loses exactly the amount, the recipient gains exactly the amount, and
two records are appended. -/
theorem sendMoney_symmetry (cb amount : Int) (rf rs : Bool) (s s' : TwoState)
    (h : sendMoney cb amount rf rs s = .ok s') :
    s'.fromW.balance = s.fromW.balance - amount
  ∧ s'.toW.balance = s.toW.balance + amount
  ∧ s'.txLog.length = s.txLog.length + 2 := by
  simp only [sendMoney] at h
  split_ifs at h
  all_goals first
    | exact Except.noConfusion h
    | (injection h with h
       subst h
       refine ⟨rfl, rfl, by simp⟩)

/-- At-most-once settlement does hold for the transaction-compliant
`processDeposit`, whose pending check runs inside the same transaction
as its writes: once a request is settled, any further settlement
attempt fails. -/
theorem processDeposit_at_most_once (d d' : Decision) (s s' s'' : DepState)
    (h : processDeposit d s = .ok s') :
    processDeposit d' s' ≠ .ok s'' := by
  have hs : s'.request.status = "approved" ∨ s'.request.status = "rejected" := by
    cases d
    all_goals
      simp only [processDeposit] at h
    all_goals
      split_ifs at h
    all_goals first
      | exact Except.noConfusion h
      | (injection h with h
         subst h
         first
           | exact Or.inl rfl
           | exact Or.inr rfl)
  intro hcon
  cases d'
  all_goals
    simp only [processDeposit] at hcon
  all_goals
    split_ifs at hcon with h2
  all_goals first
    | exact Except.noConfusion hcon
    | (rcases hs with h3 | h3 <;> rw [h3] at h2 <;> exact h2 (by decide))

end Millioner
